import Mathlib

/-!
# DigiFarmer local-first layer: a shallow embedding

This file embeds, in Lean, the local-first session / reference-data layer of the
DigiFarmer application (files `src/frontend/app/index.tsx` and
`src/frontend/app/ai-chat.tsx`, the latter containing both the AI chat screen and
the profit-calculator screen) and proves properties about it.

Conventions of the embedding:
* The durable key-value store (`AsyncStorage`) is an association list from keys to
  raw string values; `set` overwrites, `get` looks up.
* External JavaScript builtins (`JSON.parse`, `JSON.stringify`, `parseFloat`,
  `toLocaleString`, `toFixed`) are taken as parameters of the functions that call
  them, since their implementations live outside the repository.
* JavaScript string truthiness (`""` and `null` are falsy) is modelled explicitly.
* JavaScript number semantics around division by zero are modelled by `JsNum`,
  with `Infinity`, `-Infinity` and `NaN` as explicit values; elsewhere arithmetic
  on exactly-representable values is modelled in `ℚ`.
-/

namespace DigiFarmer

/-- JavaScript truthiness of a nullable string: `null` and `""` are falsy. -/
def jsTruthyStr : Option String → Bool
  | none => false
  | some s => !(s == "")

/-- The JavaScript builtin `String.prototype.trim`: drop leading and trailing
whitespace. -/
def jsTrim (s : String) : String :=
  ⟨((s.data.dropWhile Char.isWhitespace).reverse.dropWhile Char.isWhitespace).reverse⟩

/-- The durable key-value store (`AsyncStorage`): a key-to-string association list. -/
abbrev KVStore := List (String × String)

/-- `AsyncStorage.getItem`: the most recent value written under the key, if any. -/
def kvGet (st : KVStore) (k : String) : Option String :=
  (st.find? (fun p => p.1 == k)).map (·.2)

/-- `AsyncStorage.setItem`: overwrite the value under the key. -/
def kvSet (st : KVStore) (k v : String) : KVStore :=
  (k, v) :: st.filter (fun p => !(p.1 == k))

/-- Chat message record of the home screen (`interface ChatMessage`,
`src/frontend/app/index.tsx` lines 22-28). -/
structure ChatMessage where
  id : String
  message : String
  response : String
  timestamp : String
  isUser : Bool
deriving DecidableEq, Repr

/-- Location record (`interface LocationData`, `ai-chat.tsx` lines 34-40). -/
structure LocationData where
  latitude : ℚ
  longitude : ℚ
  address : Option String := none
  region : Option String := none
  country : Option String := none
deriving DecidableEq, Repr

/-- Chat message record of the AI chat screen (`interface ChatMessage`,
`ai-chat.tsx` lines 23-32), which extends the record of the home screen with
language and image fields. -/
structure AIChatMessage where
  id : String
  message : String
  response : String
  timestamp : String
  isUser : Bool
  language : Option String := none
  hasImage : Option Bool := none
  imageUri : Option String := none
deriving DecidableEq, Repr

/-- Outcome of one `fetch` round trip to `POST /api/chat`, as the calling code
distinguishes them: a delivered, parseable success body; a non-2xx status
(`!response.ok`, which the code turns into a thrown error); a transport error
(`fetch` itself rejects); or a body parse failure (`response.json()` rejects). -/
inductive FetchOutcome where
  | success (messageId : String) (resp : String) (translated : Option String)
      (detectedLang : Option String)
  | httpError (status : Nat)
  | transportError
  | parseError
deriving DecidableEq, Repr

/-- The failure classification: every outcome other than `success` lands in the
`catch` block of `sendMessage`. -/
def FetchOutcome.isFailure : FetchOutcome → Bool
  | .success _ _ _ _ => false
  | _ => true

/-! ## Session persistence primitives (shared by both chat screens) -/

/-- The loader body shared, up to message type and key, by `loadCachedMessages`
in `index.tsx` (lines 56-65) and in `ai-chat.tsx` (lines 69-78): if a truthy
value is stored, parse it (`de` models `JSON.parse`); an absent value leaves
the initial empty list, and a thrown parse error is caught, likewise leaving
the empty list. -/
def loadCachedList {α : Type} (de : String → Except String (List α))
    (stored : Option String) : List α :=
  match stored with
  | none => []
  | some s =>
      if s == "" then []
      else
        match de s with
        | .ok l => l
        | .error _ => []

/-- `saveCachedMessages` (`index.tsx` lines 67-73): serialize the full message
list (`ser` models `JSON.stringify`) and persist it under `chat_<sessionId>`. -/
def saveCachedMessages (ser : List ChatMessage → String) (sessionId : String)
    (store : KVStore) (msgs : List ChatMessage) : KVStore :=
  kvSet store ("chat_" ++ sessionId) (ser msgs)

/-- `loadCachedMessages` (`index.tsx` lines 56-65) read from a given store. -/
def loadCachedMessages (de : String → Except String (List ChatMessage))
    (sessionId : String) (store : KVStore) : List ChatMessage :=
  loadCachedList de (kvGet store ("chat_" ++ sessionId))

/-- In-memory message list plus durable store: the state acted on by one
append-and-persist step. -/
structure SessionState where
  messages : List ChatMessage := []
  store : KVStore := []
deriving Repr

/-- One append-and-persist step (`index.tsx` lines 87-90, likewise 119-121):
extend the in-memory list by one message and persist the full updated list. -/
def sessionAppend (ser : List ChatMessage → String) (sessionId : String)
    (st : SessionState) (m : ChatMessage) : SessionState :=
  let updated := st.messages ++ [m]
  { messages := updated
    store := saveCachedMessages ser sessionId st.store updated }

/-! ## Home-screen chat flow (`index.tsx`) -/

/-- The offline fallback response of the home chat flow (`index.tsx` line 132). -/
def homeOfflineResponse : String :=
  "I\x27m currently offline, but I\x27ve saved your message. Here are some general farming tips: Check soil moisture regularly, monitor weather forecasts, and consider crop rotation for better yields. For specific advice, please try again when connected to the internet."

/-- The offline alert of the home chat flow (`index.tsx` line 141). -/
def homeOfflineAlert : String × String :=
  ("Offline Mode", "Your message has been saved. I\x27ll provide a full response when you\x27re back online.")

/-- Screen state of the home chat flow relevant to `sendMessage`. -/
structure HomeState where
  messages : List ChatMessage := []
  store : KVStore := []
  isOnline : Bool := true
  alert : Option (String × String) := none
deriving Repr

/-- The user message built by `sendMessage` of the home screen
(`index.tsx` lines 79-85). -/
def homeUserMessage (nowU tsU input : String) : ChatMessage :=
  { id := nowU, message := input, response := "", timestamp := tsU, isUser := true }

/-- The assistant message built from a delivered response
(`index.tsx` lines 111-117). -/
def homeAiMessage (mid resp tsA : String) : ChatMessage :=
  { id := mid, message := "", response := resp, timestamp := tsA, isUser := false }

/-- The offline-synthesized assistant message (`index.tsx` lines 129-135). -/
def homeOfflineMessage (nowA tsA : String) : ChatMessage :=
  { id := "offline_" ++ nowA, message := "", response := homeOfflineResponse
    timestamp := tsA, isUser := false }

/-- `sendMessage` of the home screen (`index.tsx` lines 75-145). `ser` models
`JSON.stringify`; `nowU`/`tsU` are the `Date.now().toString()` id and ISO
timestamp drawn for the user message, `nowA`/`tsA` those drawn for the
assistant message; `outcome` is the result of the `fetch` round trip.
An input that fails the `!message.trim()` guard returns unchanged. -/
def homeSendMessage (ser : List ChatMessage → String)
    (sessionId nowU tsU nowA tsA : String) (input : String)
    (outcome : FetchOutcome) (st : HomeState) : HomeState :=
  if jsTrim input == "" then st
  else
    let updatedMessages := st.messages ++ [homeUserMessage nowU tsU input]
    let store1 := saveCachedMessages ser sessionId st.store updatedMessages
    match outcome with
    | .success mid resp _ _ =>
        let finalMessages := updatedMessages ++ [homeAiMessage mid resp tsA]
        { messages := finalMessages
          store := saveCachedMessages ser sessionId store1 finalMessages
          isOnline := true, alert := st.alert }
    | _ =>
        let offlineMessages := updatedMessages ++ [homeOfflineMessage nowA tsA]
        { messages := offlineMessages
          store := saveCachedMessages ser sessionId store1 offlineMessages
          isOnline := false, alert := some homeOfflineAlert }

/-! ## AI chat flow (first half of `ai-chat.tsx`) -/

/-- The request text defaulted in the envelope when the caller typed nothing
(`ai-chat.tsx` line 185). -/
def imageDefaultRequestText : String :=
  "Please analyze this plant image for diseases"

/-- The display text defaulted in the logged user message when the caller typed
nothing (`ai-chat.tsx` line 164). -/
def imageDefaultDisplayText : String :=
  "Image uploaded for disease detection"

/-- The offline fallback response of the AI chat flow (`ai-chat.tsx` line 219). -/
def aiChatOfflineResponse : String :=
  "I\x27m currently offline. Your message has been saved and I\x27ll respond when connection is restored."

/-- The offline alert of the AI chat flow (`ai-chat.tsx` line 228). -/
def aiChatOfflineAlert : String × String :=
  ("Offline Mode", "Your message has been saved for later processing.")

/-- The outbound request envelope of the AI chat flow: the JSON body built at
`ai-chat.tsx` lines 184-191. -/
structure ChatRequestBody where
  message : String
  session_id : String
  message_type : String
  language : String
  location : Option LocationData
  image_data : Option String
deriving DecidableEq, Repr

/-- The request-body construction of `ai-chat.tsx` lines 184-191: the text
defaults when falsy, `message_type` is `"image"` exactly when `selectedImage`
is truthy, and `image_data` carries the data-URI wrapping of the image bytes
exactly when `selectedImage` is truthy (`null` otherwise). -/
def aiChatRequestBody (message sessionId selectedLanguage : String)
    (location : Option LocationData) (selectedImage : Option String) :
    ChatRequestBody :=
  { message := if message == "" then imageDefaultRequestText else message
    session_id := sessionId
    message_type := if jsTruthyStr selectedImage then "image" else "text"
    language := selectedLanguage
    location := location
    image_data :=
      match selectedImage with
      | some s => if s == "" then none else some ("data:image/jpeg;base64," ++ s)
      | none => none }

/-- The normalization applied when an image is picked (`ai-chat.tsx` lines 132
and 150): `result.assets[0].base64 || null` maps a missing or empty base64
payload to `null`. -/
def normalizePickedImage (base64 : Option String) : Option String :=
  match base64 with
  | some s => if s == "" then none else some s
  | none => none

/-- `saveCachedMessages` of the AI chat screen (`ai-chat.tsx` lines 80-86). -/
def aiChatSaveCachedMessages (ser : List AIChatMessage → String)
    (sessionId : String) (store : KVStore) (msgs : List AIChatMessage) : KVStore :=
  kvSet store ("ai_chat_" ++ sessionId) (ser msgs)

/-- `loadCachedMessages` of the AI chat screen (`ai-chat.tsx` lines 69-78). -/
def aiChatLoadCachedMessages (de : String → Except String (List AIChatMessage))
    (sessionId : String) (store : KVStore) : List AIChatMessage :=
  loadCachedList de (kvGet store ("ai_chat_" ++ sessionId))

/-- Screen state of the AI chat flow relevant to `sendMessage`. The `sent`
field records the last envelope handed to `fetch` (the observable outbound
request), so that the use the flow makes of the request builder is part of the state. -/
structure AIChatState where
  messages : List AIChatMessage := []
  store : KVStore := []
  alert : Option (String × String) := none
  sent : Option ChatRequestBody := none
deriving Repr

/-- The user message built by `sendMessage` of the AI chat screen
(`ai-chat.tsx` lines 162-171). -/
def aiChatUserMessage (nowU tsU input selectedLanguage : String)
    (selectedImage : Option String) : AIChatMessage :=
  { id := nowU
    message := if input == "" then imageDefaultDisplayText else input
    response := "", timestamp := tsU, isUser := true
    language := some selectedLanguage
    hasImage := some (jsTruthyStr selectedImage)
    imageUri :=
      match selectedImage with
      | some s => if s == "" then none else some ("data:image/jpeg;base64," ++ s)
      | none => none }

/-- The assistant message built from a delivered response, preferring the
truthy translated text (`ai-chat.tsx` lines 200-207). -/
def aiChatAiMessage (mid resp : String) (translated : Option String) (tsA : String)
    (detectedLang : Option String) : AIChatMessage :=
  { id := mid, message := ""
    response :=
      match translated with
      | some t => if t == "" then resp else t
      | none => resp
    timestamp := tsA, isUser := false, language := detectedLang }

/-- The offline-synthesized assistant message (`ai-chat.tsx` lines 216-222). -/
def aiChatOfflineMessage (nowA tsA : String) : AIChatMessage :=
  { id := "offline_" ++ nowA, message := "", response := aiChatOfflineResponse
    timestamp := tsA, isUser := false }

/-- `sendMessage` of the AI chat screen (`ai-chat.tsx` lines 158-233).
Arguments as in `homeSendMessage`, plus the selected language, captured
location and selected image that enter the user message and the envelope.
An input failing the `!message.trim() && !selectedImage` guard returns
unchanged. -/
def aiChatSendMessage (ser : List AIChatMessage → String)
    (sessionId nowU tsU nowA tsA selectedLanguage : String)
    (location : Option LocationData) (selectedImage : Option String)
    (input : String) (outcome : FetchOutcome) (st : AIChatState) : AIChatState :=
  if jsTrim input == "" && !(jsTruthyStr selectedImage) then st
  else
    let updatedMessages :=
      st.messages ++ [aiChatUserMessage nowU tsU input selectedLanguage selectedImage]
    let store1 := aiChatSaveCachedMessages ser sessionId st.store updatedMessages
    let envelope := aiChatRequestBody input sessionId selectedLanguage location selectedImage
    match outcome with
    | .success mid resp translated detectedLang =>
        let finalMessages :=
          updatedMessages ++ [aiChatAiMessage mid resp translated tsA detectedLang]
        { messages := finalMessages
          store := aiChatSaveCachedMessages ser sessionId store1 finalMessages
          alert := st.alert, sent := some envelope }
    | _ =>
        let offlineMessages := updatedMessages ++ [aiChatOfflineMessage nowA tsA]
        { messages := offlineMessages
          store := aiChatSaveCachedMessages ser sessionId store1 offlineMessages
          alert := some aiChatOfflineAlert, sent := some envelope }

/-! ## The concurrent append race

Each `sendMessage` call captures the `messages` state in its closure (the read)
and later persists its extension of that snapshot (the write). When a second
send is issued before the persistence of the first completes, the two
read-modify-write pairs interleave. The events of the two appends and a small
interpreter over schedules make the interleavings explicit. -/

/-- The read and write events of two racing append operations. -/
inductive RaceEv where
  | read1
  | write1
  | read2
  | write2
deriving DecidableEq, Repr

/-- State of the race interpreter: the persisted log, and the snapshot each
operation captured at its read (absent until the read happens). -/
structure RaceState where
  store : List ChatMessage
  r1 : Option (List ChatMessage)
  r2 : Option (List ChatMessage)
deriving Repr

/-- One event of the race: a read snapshots the persisted log; a write persists
the snapshot of that operation extended by its own message (the read-modify-write of
`sendMessage` plus `saveCachedMessages`). -/
def raceStep (m1 m2 : ChatMessage) (st : RaceState) (e : RaceEv) : RaceState :=
  match e with
  | .read1 => { st with r1 := some st.store }
  | .read2 => { st with r2 := some st.store }
  | .write1 => { st with store := st.r1.getD [] ++ [m1] }
  | .write2 => { st with store := st.r2.getD [] ++ [m2] }

/-- The persisted log after running a schedule of race events from an initial
persisted log. -/
def runRace (m1 m2 : ChatMessage) (init : List ChatMessage)
    (sched : List RaceEv) : List ChatMessage :=
  (sched.foldl (raceStep m1 m2) ⟨init, none, none⟩).store

end DigiFarmer

namespace DigiFarmer

/-! ## Profit-calculator screen (second half of `ai-chat.tsx`) -/

/-- Per-acre cost record (`interface CostBreakdown`, `ai-chat.tsx` lines 768-777). -/
structure CostBreakdown where
  seeds : ℚ
  fertilizer : ℚ
  irrigation : ℚ
  labor : ℚ
  pesticides : ℚ
  equipment : ℚ
  transportation : ℚ
  total : ℚ
deriving DecidableEq, Repr

/-- The `Rice` entry of `mockCostData` (`ai-chat.tsx` lines 801-810). -/
def mockCostDataRice : CostBreakdown :=
  { seeds := 3000, fertilizer := 8000, irrigation := 12000, labor := 15000
    pesticides := 4000, equipment := 6000, transportation := 2000, total := 50000 }

/-- The `Wheat` entry of `mockCostData` (`ai-chat.tsx` lines 811-820). -/
def mockCostDataWheat : CostBreakdown :=
  { seeds := 2500, fertilizer := 7000, irrigation := 8000, labor := 12000
    pesticides := 3000, equipment := 5000, transportation := 1500, total := 39000 }

/-- The `Cotton` entry of `mockCostData` (`ai-chat.tsx` lines 821-830). -/
def mockCostDataCotton : CostBreakdown :=
  { seeds := 4000, fertilizer := 12000, irrigation := 15000, labor := 18000
    pesticides := 8000, equipment := 8000, transportation := 3000, total := 68000 }

/-- The `mockCostData` table keyed by crop name (`ai-chat.tsx` lines 800-831). -/
def mockCostData (crop : String) : Option CostBreakdown :=
  if crop == "Rice" then some mockCostDataRice
  else if crop == "Wheat" then some mockCostDataWheat
  else if crop == "Cotton" then some mockCostDataCotton
  else none

/-- `totalCost = costBreakdown.total * areaFloat` (`ai-chat.tsx` line 865). -/
def profitTotalCost (cb : CostBreakdown) (areaFloat : ℚ) : ℚ :=
  cb.total * areaFloat

/-- `totalYield = yieldFloat * areaFloat` (`ai-chat.tsx` line 866), in quintals. -/
def profitTotalYield (yieldFloat areaFloat : ℚ) : ℚ :=
  yieldFloat * areaFloat

/-- `totalRevenue = totalYield * priceFloat * 100` (`ai-chat.tsx` line 867); the
`* 100` converts quintals to kilograms, the price being per kilogram. -/
def profitTotalRevenue (totalYield priceFloat : ℚ) : ℚ :=
  totalYield * priceFloat * 100

/-- `netProfit = totalRevenue - totalCost` (`ai-chat.tsx` line 868). -/
def profitNetProfit (totalRevenue totalCost : ℚ) : ℚ :=
  totalRevenue - totalCost

/-- A JavaScript number outcome: a finite (here exactly-representable) value, an
infinity, or `NaN`. -/
inductive JsNum where
  | num (q : ℚ)
  | posInf
  | negInf
  | nan
deriving DecidableEq, Repr

/-- JavaScript division of finite values: division by (positive) zero yields a
signed infinity, or `NaN` when the dividend is also zero. -/
def jsDiv (a b : ℚ) : JsNum :=
  if b = 0 then
    if a > 0 then .posInf else if a < 0 then .negInf else .nan
  else .num (a / b)

/-- JavaScript multiplication of a number outcome by a positive finite constant:
infinities and `NaN` are absorbing. -/
def jsMulPos (x : JsNum) (c : ℚ) : JsNum :=
  match x with
  | .num q => .num (q * c)
  | x => x

/-- The profit-margin value computed at `ai-chat.tsx` line 913:
`(netProfit / totalRevenue) * 100`, under JavaScript number semantics. -/
def profitMarginJs (netProfit totalRevenue : ℚ) : JsNum :=
  jsMulPos (jsDiv netProfit totalRevenue) 100

/-- The input-validation guard of `calculateProfit` (`ai-chat.tsx` line 852):
`!area || !expectedYield || !marketPrice` — each field passes iff its string is
truthy, i.e. non-empty. -/
def profitInputsValid (area expectedYield marketPrice : String) : Bool :=
  !(area == "") && !(expectedYield == "") && !(marketPrice == "")

/-- Saved analysis record (`interface ProfitAnalysis`, `ai-chat.tsx` lines 760-766). -/
structure ProfitAnalysis where
  crop : String
  area : ℚ
  location : String
  profit_analysis : String
  timestamp : String
deriving DecidableEq, Repr

/-- The positive-profit recommendation line of the fallback analysis
(`ai-chat.tsx` line 917). -/
def recommendationPositive : String :=
  "✅ This crop shows positive profit potential. Consider factors like weather, disease risk, and market volatility."

/-- The negative-profit recommendation line of the fallback analysis
(`ai-chat.tsx` line 918). -/
def recommendationNegative : String :=
  "⚠️ Current projections show potential loss. Consider crop alternatives or cost optimization."

/-- The fallback analysis template string (`ai-chat.tsx` lines 892-927).
`fmtNum` models JavaScript default number-to-string conversion, `fmtLocale`
models `Number.prototype.toLocaleString`, and `fmtFixed1` models `toFixed(1)`
applied to the (possibly non-finite) margin value; all three are external
runtime builtins. -/
def mockAnalysisText (fmtNum fmtLocale : ℚ → String) (fmtFixed1 : JsNum → String)
    (cropName area marketPrice : String) (cb : CostBreakdown)
    (areaFloat yieldFloat totalYield totalCost totalRevenue netProfit : ℚ) : String :=
  "**Profit Analysis for " ++ cropName ++ "**\n\n**Basic Calculations:**\n- Total Area: "
    ++ area ++ " acres\n- Expected Yield: " ++ fmtNum yieldFloat
    ++ " quintals/acre\n- Current Market Price: ₹" ++ marketPrice
    ++ "/kg\n- Total Production: " ++ fmtNum totalYield
    ++ " quintals\n\n**Cost Breakdown (₹" ++ fmtLocale totalCost
    ++ "):**\n- Seeds: ₹" ++ fmtLocale (cb.seeds * areaFloat)
    ++ "\n- Fertilizer: ₹" ++ fmtLocale (cb.fertilizer * areaFloat)
    ++ "\n- Irrigation: ₹" ++ fmtLocale (cb.irrigation * areaFloat)
    ++ "\n- Labor: ₹" ++ fmtLocale (cb.labor * areaFloat)
    ++ "\n- Pesticides: ₹" ++ fmtLocale (cb.pesticides * areaFloat)
    ++ "\n- Equipment: ₹" ++ fmtLocale (cb.equipment * areaFloat)
    ++ "\n- Transportation: ₹" ++ fmtLocale (cb.transportation * areaFloat)
    ++ "\n\n**Revenue Analysis:**\n- Total Revenue: ₹" ++ fmtLocale totalRevenue
    ++ "\n- Total Cost: ₹" ++ fmtLocale totalCost
    ++ "\n- **Net Profit: ₹" ++ fmtLocale netProfit
    ++ "**\n- Profit Margin: " ++ fmtFixed1 (profitMarginJs netProfit totalRevenue)
    ++ "%\n\n**Recommendations:**\n"
    ++ (if netProfit > 0 then recommendationPositive else recommendationNegative)
    ++ "\n\n**Risk Factors:**\n- Weather dependency\n- Market price fluctuations\n- Pest and disease risks\n- Input cost variations\n\n*Note: Prices fluctuate regularly. Check current market rates before making decisions.*"

/-- The alert raised by the `catch` block of `calculateProfit`
(`ai-chat.tsx` line 941), as an `Alert.alert(title, message)` pair. -/
def profitErrorAlert : String × String :=
  ("Error", "Failed to calculate profit. Please try again.")

/-- The cache insertion performed at `ai-chat.tsx` lines 936-937:
`analyses.unshift(entry)` followed by `analyses.slice(0, 10)` — prepend the new
entry, then truncate to the 10 most recent. -/
def cachePut {α : Type} (a : α) (l : List α) : List α :=
  (a :: l).take 10

/-- Screen state of the profit calculator relevant to `calculateProfit`:
the displayed analysis (`profitAnalysis` React state), the durable store, and
the most recent alert. -/
structure ProfitState where
  profitAnalysis : Option ProfitAnalysis := none
  store : KVStore := []
  alert : Option (String × String) := none
deriving Repr

/-- Outcome of the `fetch` to `POST /api/market/predict-profit` as
`calculateProfit` distinguishes them: `response.ok` with a parsed body, a
non-ok response (the local-fallback branch), or a rejected `fetch`. -/
inductive ProfitNetOutcome where
  | ok (data : ProfitAnalysis)
  | badStatus (status : Nat)
  | netError
deriving DecidableEq, Repr

/-- The string parsed by the persistence step of `calculateProfit`:
`await AsyncStorage.getItem("profit_analyses") || "[]"` (`ai-chat.tsx` line
934), with JavaScript falsiness mapping an absent or empty stored value to
`"[]"`. -/
def storedAnalysesRaw (store : KVStore) : String :=
  match kvGet store "profit_analyses" with
  | some s => if s == "" then "[]" else s
  | none => "[]"

/-- The persistence step at `ai-chat.tsx` lines 933-937, together with the
`catch` block that fields its exceptions. `deA`/`serA` model
`JSON.parse`/`JSON.stringify` for the stored analysis list.
`mockAnalysisInScope` is the value bound to the name `mockAnalysis` at this
program point, if any: evaluating `analyses.unshift(mockAnalysis)` when the
name is unbound raises a `ReferenceError`, which the `catch` block turns into
the error alert with no write performed. -/
def persistAnalysesStep (deA : String → Except String (List ProfitAnalysis))
    (serA : List ProfitAnalysis → String)
    (mockAnalysisInScope : Option ProfitAnalysis) (st : ProfitState) : ProfitState :=
  match deA (storedAnalysesRaw st.store) with
  | .error _ =>
      -- `JSON.parse` threw on corrupt stored data; the `catch` block runs.
      { st with alert := some profitErrorAlert }
  | .ok analyses =>
      match mockAnalysisInScope with
      | none =>
          -- `ReferenceError: mockAnalysis is not defined`; the `catch` block runs.
          { st with alert := some profitErrorAlert }
      | some a =>
          { st with store := kvSet st.store "profit_analyses" (serA (cachePut a analyses)) }

/-- `calculateProfit` (`ai-chat.tsx` lines 851-945). `parseFloat` models the
JavaScript builtin of the same name; `deA`/`serA` the JSON codec for the
analysis list; the `fmt` arguments the number-formatting builtins; `now` the
`new Date().toISOString()` timestamp; `cropName`, `loc` the route parameters;
`costBreakdown` and the three strings the screen state at the call.

The `const mockAnalysis` declaration is block-scoped to the `!response.ok`
branch, while the persistence statement at lines 933-937 sits after the whole
`if`/`else`; in both branches the name is therefore out of scope at the
persistence step, which is passed `none` as the in-scope binding. -/
def calculateProfit (parseFloat : String → ℚ)
    (deA : String → Except String (List ProfitAnalysis))
    (serA : List ProfitAnalysis → String)
    (fmtNum fmtLocale : ℚ → String) (fmtFixed1 : JsNum → String)
    (cropName loc : String) (costBreakdown : CostBreakdown)
    (area expectedYield marketPrice : String) (now : String)
    (outcome : ProfitNetOutcome) (st : ProfitState) : ProfitState :=
  if !(profitInputsValid area expectedYield marketPrice) then
    { st with alert := some ("Error", "Please fill all required fields") }
  else
    let areaFloat := parseFloat area
    let yieldFloat := parseFloat expectedYield
    let priceFloat := parseFloat marketPrice
    let totalCost := profitTotalCost costBreakdown areaFloat
    let totalYield := profitTotalYield yieldFloat areaFloat
    let totalRevenue := profitTotalRevenue totalYield priceFloat
    let netProfit := profitNetProfit totalRevenue totalCost
    match outcome with
    | .netError =>
        -- `fetch` rejected before any branch ran; the `catch` block runs.
        { st with alert := some profitErrorAlert }
    | .ok data =>
        persistAnalysesStep deA serA none { st with profitAnalysis := some data }
    | .badStatus _ =>
        let mockAnalysis : ProfitAnalysis :=
          { crop := cropName, area := areaFloat, location := loc
            profit_analysis := mockAnalysisText fmtNum fmtLocale fmtFixed1 cropName
              area marketPrice costBreakdown areaFloat yieldFloat totalYield
              totalCost totalRevenue netProfit
            timestamp := now }
        persistAnalysesStep deA serA none { st with profitAnalysis := some mockAnalysis }

end DigiFarmer

namespace DigiFarmer

/-! ## Helper lemmas -/

/-- Reading back the key just written returns the written value. -/
theorem kvGet_kvSet_self (st : KVStore) (k v : String) :
    kvGet (kvSet st k v) k = some v := by
  simp [kvGet, kvSet, List.find?_cons_of_pos]

/-- Prepending one element to a list of at most ten keeps ten: `cachePut`
truncated explicitly. -/
theorem cachePut_cons (x : α) (l : List α) : cachePut x l = x :: l.take 9 := rfl

/-- Folding `cachePut` over a sequence of insertions from the empty namespace
leaves exactly the last ten insertions, newest first. -/
theorem foldl_cachePut_eq {α : Type} (entries : List α) :
    entries.foldl (fun acc e => cachePut e acc) [] = entries.reverse.take 10 := by
  induction entries using List.reverseRecOn with
  | nil => rfl
  | append_singleton xs x ih =>
      rw [List.foldl_append, List.foldl_cons, List.foldl_nil, ih, List.reverse_append]
      show x :: (xs.reverse.take 10).take 9 = (x :: xs.reverse).take 10
      rw [List.take_take]
      rfl

/-- With no `mockAnalysis` binding in scope the persistence step only raises
the error alert, whatever the stored value parses to. -/
theorem persistAnalysesStep_no_binding (deA : String → Except String (List ProfitAnalysis))
    (serA : List ProfitAnalysis → String) (st : ProfitState) :
    persistAnalysesStep deA serA none st = { st with alert := some profitErrorAlert } := by
  cases h : deA (storedAnalysesRaw st.store) <;> simp [persistAnalysesStep, h]

/-- The in-memory log after a sequence of append-and-persist steps is the
initial log extended by the appended messages, in order. -/
theorem sessionAppend_foldl_messages (ser : List ChatMessage → String) (sid : String)
    (msgs : List ChatMessage) (st : SessionState) :
    (msgs.foldl (sessionAppend ser sid) st).messages = st.messages ++ msgs := by
  induction msgs generalizing st with
  | nil => simp
  | cons m rest ih => simp [sessionAppend, ih]

/-! ## The claims -/

/-- C1: for the Rice cost table with `areaAcres = 2`, `yieldPerAcre = 25` and
`pricePerKg = 25.5`, the profit computation yields `totalCost = 100000`,
`totalYieldKg = 5000` (50 quintals), `totalRevenue = 127500`,
`netProfit = 27500`, and a margin of `1100/51 ≈ 21.57` percent; the `total`
field the code multiplies is the sum of the seven cost fields. -/
theorem c1_profit_formula_exactness :
    mockCostDataRice.seeds + mockCostDataRice.fertilizer + mockCostDataRice.irrigation
        + mockCostDataRice.labor + mockCostDataRice.pesticides + mockCostDataRice.equipment
        + mockCostDataRice.transportation = mockCostDataRice.total
    ∧ profitTotalCost mockCostDataRice 2 = 100000
    ∧ profitTotalYield 25 2 * 100 = 5000
    ∧ profitTotalRevenue (profitTotalYield 25 2) 25.5 = 127500
    ∧ profitNetProfit (profitTotalRevenue (profitTotalYield 25 2) 25.5)
        (profitTotalCost mockCostDataRice 2) = 27500
    ∧ profitMarginJs
        (profitNetProfit (profitTotalRevenue (profitTotalYield 25 2) 25.5)
          (profitTotalCost mockCostDataRice 2))
        (profitTotalRevenue (profitTotalYield 25 2) 25.5) = .num (1100 / 51)
    ∧ (21.56 : ℚ) < 1100 / 51 ∧ (1100 / 51 : ℚ) < 21.58 := by
  norm_num [mockCostDataRice, profitTotalCost, profitTotalYield, profitTotalRevenue,
    profitNetProfit, profitMarginJs, jsDiv, jsMulPos]

end DigiFarmer

namespace DigiFarmer

/-- C2: the outbound envelope has `message_type = "image"` exactly when image
bytes were supplied (a picked image is normalized so that an empty payload is
`null`), `message_type = "image"` holds exactly when `image_data` is present,
and with no image supplied the envelope is a text envelope with `image_data`
absent. -/
theorem c2_envelope_modality_invariant :
    ∀ (message sessionId lang : String) (location : Option LocationData)
      (selectedImage : Option String),
      selectedImage ≠ some "" →
      ((aiChatRequestBody message sessionId lang location selectedImage).message_type = "image"
        ↔ selectedImage.isSome = true)
      ∧ ((aiChatRequestBody message sessionId lang location selectedImage).message_type = "image"
        ↔ (aiChatRequestBody message sessionId lang location selectedImage).image_data.isSome
            = true)
      ∧ (selectedImage = none →
          (aiChatRequestBody message sessionId lang location selectedImage).message_type = "text"
          ∧ (aiChatRequestBody message sessionId lang location selectedImage).image_data
              = none) := by
  intro message sessionId lang location selectedImage h
  cases selectedImage with
  | none => simp [aiChatRequestBody, jsTruthyStr]
  | some s =>
      have hs : (s == "") = false := by
        cases hb : s == "" with
        | false => rfl
        | true => exact absurd (by rw [eq_of_beq hb]) h
      simp [aiChatRequestBody, jsTruthyStr, hs]

/-- C2 witness: a concrete non-empty image yields an image-modality envelope. -/
theorem c2_envelope_modality_invariant_witness :
    (some "abc" : Option String) ≠ some ""
    ∧ ((aiChatRequestBody "Hello" "s1" "en" none (some "abc")).message_type = "image"
        ↔ (some "abc" : Option String).isSome = true) :=
  ⟨by decide, (c2_envelope_modality_invariant "Hello" "s1" "en" none (some "abc") (by decide)).1⟩

end DigiFarmer

namespace DigiFarmer

/-- C3: every send that passes input validation appends exactly one assistant
message after the user message and persists the final log, whatever the fetch
outcome (delivered, HTTP error, transport error, or parse failure); on any
failure the appended assistant message carries the offline-synthesized
text. Both chat flows are covered; the totality of the two send functions over
all outcomes is the no-escaping-error boundary. -/
theorem c3_send_always_appends_one_assistant :
    ∀ (ser : List ChatMessage → String) (serA : List AIChatMessage → String)
      (sessionId nowU tsU nowA tsA lang input : String)
      (location : Option LocationData) (selectedImage : Option String)
      (outcome : FetchOutcome) (hst : HomeState) (ast : AIChatState),
      ((jsTrim input == "") = false →
        ∃ userMsg assistantMsg : ChatMessage,
          userMsg.isUser = true ∧ assistantMsg.isUser = false
          ∧ (homeSendMessage ser sessionId nowU tsU nowA tsA input outcome hst).messages
              = hst.messages ++ [userMsg, assistantMsg]
          ∧ kvGet (homeSendMessage ser sessionId nowU tsU nowA tsA input outcome hst).store
              ("chat_" ++ sessionId)
              = some (ser (hst.messages ++ [userMsg, assistantMsg]))
          ∧ (outcome.isFailure = true → assistantMsg.response = homeOfflineResponse))
      ∧ ((jsTrim input == "" && !(jsTruthyStr selectedImage)) = false →
        ∃ userMsg assistantMsg : AIChatMessage,
          userMsg.isUser = true ∧ assistantMsg.isUser = false
          ∧ (aiChatSendMessage serA sessionId nowU tsU nowA tsA lang location selectedImage
              input outcome ast).messages = ast.messages ++ [userMsg, assistantMsg]
          ∧ kvGet (aiChatSendMessage serA sessionId nowU tsU nowA tsA lang location
              selectedImage input outcome ast).store ("ai_chat_" ++ sessionId)
              = some (serA (ast.messages ++ [userMsg, assistantMsg]))
          ∧ (outcome.isFailure = true → assistantMsg.response = aiChatOfflineResponse)) := by
  intro ser serA sessionId nowU tsU nowA tsA lang input location selectedImage outcome hst ast
  constructor
  · intro h
    cases outcome with
    | success mid resp tr dl =>
        refine ⟨homeUserMessage nowU tsU input, homeAiMessage mid resp tsA, rfl, rfl, ?_, ?_, ?_⟩
        · simp [homeSendMessage, h]
        · simp [homeSendMessage, h, saveCachedMessages, kvGet_kvSet_self]
        · intro hf; simp [FetchOutcome.isFailure] at hf
    | httpError status =>
        refine ⟨homeUserMessage nowU tsU input, homeOfflineMessage nowA tsA, rfl, rfl, ?_, ?_,
          fun _ => rfl⟩
        · simp [homeSendMessage, h]
        · simp [homeSendMessage, h, saveCachedMessages, kvGet_kvSet_self]
    | transportError =>
        refine ⟨homeUserMessage nowU tsU input, homeOfflineMessage nowA tsA, rfl, rfl, ?_, ?_,
          fun _ => rfl⟩
        · simp [homeSendMessage, h]
        · simp [homeSendMessage, h, saveCachedMessages, kvGet_kvSet_self]
    | parseError =>
        refine ⟨homeUserMessage nowU tsU input, homeOfflineMessage nowA tsA, rfl, rfl, ?_, ?_,
          fun _ => rfl⟩
        · simp [homeSendMessage, h]
        · simp [homeSendMessage, h, saveCachedMessages, kvGet_kvSet_self]
  · intro h
    cases outcome with
    | success mid resp tr dl =>
        refine ⟨aiChatUserMessage nowU tsU input lang selectedImage,
          aiChatAiMessage mid resp tr tsA dl, rfl, rfl, ?_, ?_, ?_⟩
        · simp [aiChatSendMessage, h]
        · simp [aiChatSendMessage, h, aiChatSaveCachedMessages, kvGet_kvSet_self]
        · intro hf; simp [FetchOutcome.isFailure] at hf
    | httpError status =>
        refine ⟨aiChatUserMessage nowU tsU input lang selectedImage,
          aiChatOfflineMessage nowA tsA, rfl, rfl, ?_, ?_, fun _ => rfl⟩
        · simp [aiChatSendMessage, h]
        · simp [aiChatSendMessage, h, aiChatSaveCachedMessages, kvGet_kvSet_self]
    | transportError =>
        refine ⟨aiChatUserMessage nowU tsU input lang selectedImage,
          aiChatOfflineMessage nowA tsA, rfl, rfl, ?_, ?_, fun _ => rfl⟩
        · simp [aiChatSendMessage, h]
        · simp [aiChatSendMessage, h, aiChatSaveCachedMessages, kvGet_kvSet_self]
    | parseError =>
        refine ⟨aiChatUserMessage nowU tsU input lang selectedImage,
          aiChatOfflineMessage nowA tsA, rfl, rfl, ?_, ?_, fun _ => rfl⟩
        · simp [aiChatSendMessage, h]
        · simp [aiChatSendMessage, h, aiChatSaveCachedMessages, kvGet_kvSet_self]

/-- C3 witness: a concrete failed send on the home flow appends one user and
one offline assistant message and persists the serialized log. -/
theorem c3_send_always_appends_one_assistant_witness :
    ((jsTrim "hi" == "") = false)
    ∧ ∃ userMsg assistantMsg : ChatMessage,
        userMsg.isUser = true ∧ assistantMsg.isUser = false
        ∧ (homeSendMessage (fun _ => "S") "7" "1" "t1" "2" "t2" "hi"
            .transportError {}).messages
            = ({} : HomeState).messages ++ [userMsg, assistantMsg]
        ∧ kvGet (homeSendMessage (fun _ => "S") "7" "1" "t1" "2" "t2" "hi"
            .transportError {}).store ("chat_" ++ "7")
            = some ((fun _ => "S" : List ChatMessage → String)
                (({} : HomeState).messages ++ [userMsg, assistantMsg]))
        ∧ (FetchOutcome.transportError.isFailure = true →
            assistantMsg.response = homeOfflineResponse) :=
  ⟨by decide,
    (c3_send_always_appends_one_assistant (fun _ => "S") (fun _ => "A") "7" "1" "t1" "2" "t2"
      "en" "hi" none none .transportError {} {}).1 (by decide)⟩

end DigiFarmer

namespace DigiFarmer

/-- C4: on any failed send the appended assistant text is the fixed
fallback constant — so any two failed sends of the same flow synthesize
byte-identical text — and the fixed fallback strings of the two flows differ. -/
theorem c4_offline_fallback_fixed_and_distinct :
    (∀ (ser : List ChatMessage → String) (sessionId nowU tsU nowA tsA input : String)
        (outcome : FetchOutcome) (st : HomeState),
        (jsTrim input == "") = false → outcome.isFailure = true →
        ((homeSendMessage ser sessionId nowU tsU nowA tsA input outcome st).messages.getLast?).map
            ChatMessage.response = some homeOfflineResponse)
    ∧ (∀ (ser : List AIChatMessage → String) (sessionId nowU tsU nowA tsA lang input : String)
        (location : Option LocationData) (selectedImage : Option String)
        (outcome : FetchOutcome) (st : AIChatState),
        (jsTrim input == "" && !(jsTruthyStr selectedImage)) = false → outcome.isFailure = true →
        ((aiChatSendMessage ser sessionId nowU tsU nowA tsA lang location selectedImage input
            outcome st).messages.getLast?).map AIChatMessage.response
            = some aiChatOfflineResponse)
    ∧ homeOfflineResponse ≠ aiChatOfflineResponse := by
  refine ⟨?_, ?_, by decide⟩
  · intro ser sessionId nowU tsU nowA tsA input outcome st h hf
    cases outcome with
    | success mid resp tr dl => simp [FetchOutcome.isFailure] at hf
    | httpError status =>
        simp [homeSendMessage, h, List.getLast?_concat, homeOfflineMessage]
    | transportError =>
        simp [homeSendMessage, h, List.getLast?_concat, homeOfflineMessage]
    | parseError =>
        simp [homeSendMessage, h, List.getLast?_concat, homeOfflineMessage]
  · intro ser sessionId nowU tsU nowA tsA lang input location selectedImage outcome st h hf
    cases outcome with
    | success mid resp tr dl => simp [FetchOutcome.isFailure] at hf
    | httpError status =>
        simp [aiChatSendMessage, h, List.getLast?_concat, aiChatOfflineMessage]
    | transportError =>
        simp [aiChatSendMessage, h, List.getLast?_concat, aiChatOfflineMessage]
    | parseError =>
        simp [aiChatSendMessage, h, List.getLast?_concat, aiChatOfflineMessage]

/-- C4 witness: a concrete failed send on each flow yields the fixed
fallback text. -/
theorem c4_offline_fallback_fixed_and_distinct_witness :
    ((jsTrim "hello" == "") = false)
    ∧ ((jsTrim "hello" == "" && !(jsTruthyStr (none : Option String))) = false)
    ∧ FetchOutcome.parseError.isFailure = true
    ∧ ((homeSendMessage (fun _ => "S") "7" "1" "t1" "2" "t2" "hello"
        .parseError {}).messages.getLast?).map ChatMessage.response
        = some homeOfflineResponse
    ∧ ((aiChatSendMessage (fun _ => "A") "7" "1" "t1" "2" "t2" "en" none none "hello"
        .parseError {}).messages.getLast?).map AIChatMessage.response
        = some aiChatOfflineResponse :=
  ⟨by decide, by decide, rfl,
    c4_offline_fallback_fixed_and_distinct.1 (fun _ => "S") "7" "1" "t1" "2" "t2" "hello"
      .parseError {} (by decide) rfl,
    c4_offline_fallback_fixed_and_distinct.2.1 (fun _ => "A") "7" "1" "t1" "2" "t2" "en"
      "hello" none none .parseError {} (by decide) rfl⟩

/-- C5: the cache insertion of the profit-analysis namespace prepends the new
entry and truncates to the bound of 10, so any sequence of puts starting from
the empty namespace leaves exactly the most recent (at most ten) entries,
newest first, and a single put never leaves more than ten entries whatever the
prior contents. -/
theorem c5_cache_bound_invariant :
    ∀ {α : Type} (entries : List α) (a : α) (l : List α),
      entries.foldl (fun acc e => cachePut e acc) [] = entries.reverse.take 10
      ∧ (entries.foldl (fun acc e => cachePut e acc) []).length ≤ 10
      ∧ cachePut a l = (a :: l).take 10
      ∧ (cachePut a l).length ≤ 10 := by
  intro α entries a l
  refine ⟨foldl_cachePut_eq entries, ?_, rfl, ?_⟩
  · rw [foldl_cachePut_eq]
    exact List.length_take_le 10 entries.reverse
  · exact List.length_take_le 10 (a :: l)

/-- C6 (code bug): at the validated input `area = "1"`, `expectedYield = "0"`,
`marketPrice = "10"` on the Rice cost table, total revenue is zero and the
margin expression of `ai-chat.tsx` line 913 evaluates to negative infinity
under JavaScript semantics, not to an undefined/not-applicable report. -/
theorem c6_zero_revenue_margin_is_negative_infinity :
    profitInputsValid "1" "0" "10" = true
    ∧ profitTotalRevenue (profitTotalYield 0 1) 10 = 0
    ∧ profitNetProfit (profitTotalRevenue (profitTotalYield 0 1) 10)
        (profitTotalCost mockCostDataRice 1) = -50000
    ∧ profitMarginJs
        (profitNetProfit (profitTotalRevenue (profitTotalYield 0 1) 10)
          (profitTotalCost mockCostDataRice 1))
        (profitTotalRevenue (profitTotalYield 0 1) 10) = .negInf := by
  refine ⟨rfl, ?_, ?_, ?_⟩ <;>
    norm_num [profitTotalRevenue, profitTotalYield, profitNetProfit, profitTotalCost,
      mockCostDataRice, profitMarginJs, jsDiv, jsMulPos]

/-- C7: loading a session whose stored value is absent, or whose stored string
fails to parse, yields the empty message list — the parse error is caught, not
surfaced. -/
theorem c7_corrupt_store_loads_empty :
    ∀ {α : Type} (de : String → Except String (List α)) (e s : String),
      de s = Except.error e →
      loadCachedList de (some s) = []
      ∧ loadCachedList de none = ([] : List α) := by
  intro α de e s h
  refine ⟨?_, rfl⟩
  cases hb : s == "" <;> simp [loadCachedList, hb, h]

/-- C7 witness: a parser that rejects everything loads a concrete corrupt
string as the empty session. -/
theorem c7_corrupt_store_loads_empty_witness :
    ((fun _ => Except.error "bad" : String → Except String (List ChatMessage)) "garbage\x7b"
        = Except.error "bad")
    ∧ loadCachedList (fun _ => Except.error "bad" : String → Except String (List ChatMessage))
        (some "garbage\x7b") = [] :=
  ⟨rfl, (c7_corrupt_store_loads_empty (fun _ => Except.error "bad") "bad" "garbage\x7b" rfl).1⟩

end DigiFarmer

namespace DigiFarmer

/-- C8: after N sequential append-and-persist steps from an empty session
(each persist completing before the next append reads), the in-memory log is
exactly the N appended messages in append order, and loading the session back
through the parser returns exactly those N messages, for any N including 0. -/
theorem c8_sequential_appends_replay :
    ∀ (ser : List ChatMessage → String) (de : String → Except String (List ChatMessage))
      (sid : String) (msgs : List ChatMessage),
      de (ser msgs) = Except.ok msgs →
      (ser msgs == "") = false →
      (msgs.foldl (sessionAppend ser sid) ⟨[], []⟩).messages = msgs
      ∧ loadCachedMessages de sid (msgs.foldl (sessionAppend ser sid) ⟨[], []⟩).store
          = msgs := by
  intro ser de sid msgs hrt hne
  refine ⟨by simpa using sessionAppend_foldl_messages ser sid msgs ⟨[], []⟩, ?_⟩
  induction msgs using List.reverseRecOn with
  | nil => rfl
  | append_singleton l m ih =>
      rw [List.foldl_append]
      simp only [List.foldl_cons, List.foldl_nil, sessionAppend, saveCachedMessages,
        sessionAppend_foldl_messages, loadCachedMessages, kvGet_kvSet_self]
      simp only [List.nil_append] at *
      simp [loadCachedList, hne, hrt]

/-- C8 witness: two concrete sequential appends replay as exactly those two
messages in order. -/
theorem c8_sequential_appends_replay_witness :
    ((fun _ => Except.ok [homeUserMessage "1" "t1" "hi", homeAiMessage "2" "ok" "t2"] :
        String → Except String (List ChatMessage))
      ((fun _ => "S" : List ChatMessage → String)
        [homeUserMessage "1" "t1" "hi", homeAiMessage "2" "ok" "t2"])
      = Except.ok [homeUserMessage "1" "t1" "hi", homeAiMessage "2" "ok" "t2"])
    ∧ (((fun _ => "S" : List ChatMessage → String)
        [homeUserMessage "1" "t1" "hi", homeAiMessage "2" "ok" "t2"] == "") = false)
    ∧ loadCachedMessages
        (fun _ => Except.ok [homeUserMessage "1" "t1" "hi", homeAiMessage "2" "ok" "t2"]) "9"
        ([homeUserMessage "1" "t1" "hi", homeAiMessage "2" "ok" "t2"].foldl
          (sessionAppend (fun _ => "S") "9") ⟨[], []⟩).store
        = [homeUserMessage "1" "t1" "hi", homeAiMessage "2" "ok" "t2"] :=
  ⟨rfl, rfl,
    (c8_sequential_appends_replay (fun _ => "S")
      (fun _ => Except.ok [homeUserMessage "1" "t1" "hi", homeAiMessage "2" "ok" "t2"]) "9"
      [homeUserMessage "1" "t1" "hi", homeAiMessage "2" "ok" "t2"] rfl rfl).2⟩

/-- A concrete first message for exercising the append race. -/
def raceMsg1 : ChatMessage :=
  { id := "1001", message := "first send", response := "", timestamp := "t1", isUser := true }

/-- A concrete second message for exercising the append race. -/
def raceMsg2 : ChatMessage :=
  { id := "1002", message := "second send", response := "", timestamp := "t2", isUser := true }

/-- C9 (code bug): when both appends read the persisted log before either
write lands — the schedule produced by issuing the second send before the
persistence of the first completes — the persisted log after both settle holds only
the second message: the first append is silently lost, and only the fully
serialized schedule keeps both. -/
theorem c9_concurrent_append_race_drops_first :
    runRace raceMsg1 raceMsg2 [] [.read1, .read2, .write1, .write2] = [raceMsg2]
    ∧ raceMsg1 ∉ runRace raceMsg1 raceMsg2 [] [.read1, .read2, .write1, .write2]
    ∧ runRace raceMsg1 raceMsg2 [] [.read1, .write1, .read2, .write2]
        = [raceMsg1, raceMsg2] := by
  refine ⟨rfl, ?_, rfl⟩
  decide

/-- C10: whenever `calculateProfit` passes input validation and the network
answer gets as far as a branch that sets the on-screen analysis, the
persistence step fails on the out-of-scope `mockAnalysis` binding: nothing is
written to the store, the error alert is raised, and the analysis remains set
for display — in the `response.ok` branch and the fallback branch alike. -/
theorem c10_profit_persistence_never_writes :
    ∀ (parseFloat : String → ℚ) (deA : String → Except String (List ProfitAnalysis))
      (serA : List ProfitAnalysis → String) (fmtNum fmtLocale : ℚ → String)
      (fmtFixed1 : JsNum → String) (cropName loc : String) (cb : CostBreakdown)
      (area expectedYield marketPrice now : String) (st : ProfitState),
      profitInputsValid area expectedYield marketPrice = true →
      (∀ data : ProfitAnalysis,
        (calculateProfit parseFloat deA serA fmtNum fmtLocale fmtFixed1 cropName loc cb
            area expectedYield marketPrice now (.ok data) st).store = st.store
        ∧ (calculateProfit parseFloat deA serA fmtNum fmtLocale fmtFixed1 cropName loc cb
            area expectedYield marketPrice now (.ok data) st).alert = some profitErrorAlert
        ∧ (calculateProfit parseFloat deA serA fmtNum fmtLocale fmtFixed1 cropName loc cb
            area expectedYield marketPrice now (.ok data) st).profitAnalysis = some data)
      ∧ (∀ status : Nat,
        (calculateProfit parseFloat deA serA fmtNum fmtLocale fmtFixed1 cropName loc cb
            area expectedYield marketPrice now (.badStatus status) st).store = st.store
        ∧ (calculateProfit parseFloat deA serA fmtNum fmtLocale fmtFixed1 cropName loc cb
            area expectedYield marketPrice now (.badStatus status) st).alert
            = some profitErrorAlert
        ∧ (calculateProfit parseFloat deA serA fmtNum fmtLocale fmtFixed1 cropName loc cb
            area expectedYield marketPrice now (.badStatus status) st).profitAnalysis.isSome
            = true) := by
  intro parseFloat deA serA fmtNum fmtLocale fmtFixed1 cropName loc cb area expectedYield
    marketPrice now st h
  constructor
  · intro data
    simp [calculateProfit, h, persistAnalysesStep_no_binding]
  · intro status
    simp [calculateProfit, h, persistAnalysesStep_no_binding]

/-- C10 witness: a concrete validated run through the fallback branch leaves
the store untouched and raises the error alert. -/
theorem c10_profit_persistence_never_writes_witness :
    profitInputsValid "2" "25" "25.5" = true
    ∧ (calculateProfit (fun _ => 0) (fun _ => Except.ok []) (fun _ => "[]")
        (fun _ => "") (fun _ => "") (fun _ => "") "Rice" "Pune" mockCostDataRice
        "2" "25" "25.5" "2026-01-01" (.badStatus 500) {}).alert = some profitErrorAlert :=
  ⟨rfl,
    ((c10_profit_persistence_never_writes (fun _ => 0) (fun _ => Except.ok []) (fun _ => "[]")
      (fun _ => "") (fun _ => "") (fun _ => "") "Rice" "Pune" mockCostDataRice
      "2" "25" "25.5" "2026-01-01" {} rfl).2 500).2.1⟩

end DigiFarmer
